import Mathlib

/-!
Verification of the reciprocal K-prime equation of state module
(`burnman/eos/reciprocal_kprime.py`).

The development has two layers, mirroring the source:

* a parameter-validation layer (`validate_parameters`), embedded over a
  dictionary model `Params = String → Option PVal`, where `PVal` is a float
  value that is either a rational number or NaN (NaN compares false under
  `<` and `>`, as in IEEE arithmetic, which is what the Python code relies
  on for the defaulted shear parameters);

* a physical layer (residual functions, root-finding wrappers, volume,
  pressure and moduli), embedded over the real numbers.  The only numerical
  subtlety kept from the floating-point code is that `np.log 0 = -inf`,
  which matters at the upper bracket endpoint of the volume residual; the
  residuals handed to the root finder are therefore valued in `EReal`.
  The external root finder `scipy.optimize.brentq` is modelled from the
  spec (section 6): a bracketed root finder that returns a root inside the
  bracket, and fails with a no-sign-change error when the residual has the
  same (nonzero) sign at both endpoints.
-/

/-- A floating-point parameter value: either NaN or a (rational) number.
Python floats are a subset of the rationals plus the IEEE specials; the
validation code only ever compares values, so this abstraction is exact. -/
inductive PVal where
  | nan : PVal
  | val : ℚ → PVal
deriving DecidableEq

/-- IEEE-style strict less-than: any comparison with NaN is false,
as in Python float comparison. -/
def PVal.lt : PVal → PVal → Bool
  | .val x, .val y => decide (x < y)
  | _, _ => false

/-- A parameter dictionary: a partial map from parameter names to values. -/
def Params : Type := String → Option PVal

/-- Dictionary assignment `params[k] = v`. -/
def Params.insert (p : Params) (k : String) (v : PVal) : Params :=
  fun k2 => if k2 = k then some v else p k2

/-- Dictionary lookup of a key assumed present (validation only reads keys
after establishing presence; the NaN fallback is never reached there). -/
def Params.get (p : Params) (k : String) : PVal :=
  (p k).getD PVal.nan

/-- The defaulting stage of `RKprime.validate_parameters`: insert
`P_0 = 0.`, `G_0 = nan`, `Gprime_0 = nan` when the key is absent. -/
def addDefaults (p : Params) : Params :=
  let p1 := if (p "P_0").isNone then p.insert "P_0" (PVal.val 0) else p
  let p2 := if (p1 "G_0").isNone then p1.insert "G_0" PVal.nan else p1
  if (p2 "Gprime_0").isNone then p2.insert "Gprime_0" PVal.nan else p2

/-- The required keys, in the order the source checks them. -/
def expected_keys : List String :=
  ["V_0", "K_0", "Kprime_0", "Kprime_inf", "G_0", "Gprime_0"]

/-- The range checks of `RKprime.validate_parameters`, in source order;
returns the list of emitted warning messages. -/
def rangeWarnings (q : Params) : List String :=
  (if (q.get "P_0").lt (PVal.val 0) then ["Unusual value for P_0"] else []) ++
  (if ((q.get "V_0").lt (PVal.val (1/10^7)) || (PVal.val (1/10^3)).lt (q.get "V_0"))
    then ["Unusual value for V_0"] else []) ++
  (if ((q.get "K_0").lt (PVal.val (10^9)) || (PVal.val (10^13)).lt (q.get "K_0"))
    then ["Unusual value for K_0"] else []) ++
  (if ((q.get "Kprime_0").lt (PVal.val 0) || (PVal.val 10).lt (q.get "Kprime_0"))
    then ["Unusual value for Kprime_0"] else []) ++
  (if ((q.get "Kprime_inf").lt (PVal.val (5/3)) || (q.get "Kprime_0").lt (q.get "Kprime_inf"))
    then ["Unusual value for Kprime_inf"] else []) ++
  (if ((q.get "G_0").lt (PVal.val 0) || (PVal.val (10^13)).lt (q.get "G_0"))
    then ["Unusual value for G_0"] else []) ++
  (if ((q.get "Gprime_0").lt (PVal.val (-5)) || (PVal.val 10).lt (q.get "Gprime_0"))
    then ["Unusual value for Gprime_0"] else [])

/-- Function `RKprime.validate_parameters`: default the optional keys, raise
`KeyError` on the first missing required key, then emit range warnings.
The result is the mutated dictionary together with the warning list, or
the `KeyError` message. -/
def RKprime.validate_parameters (p : Params) : Except String (Params × List String) :=
  match expected_keys.find? (fun k => (addDefaults p k).isNone) with
  | some k => Except.error ("params object missing parameter : " ++ k)
  | none => Except.ok (addDefaults p, rangeWarnings (addDefaults p))

lemma Params.insert_apply (p : Params) (k : String) (v : PVal) (k2 : String) :
    p.insert k v k2 = if k2 = k then some v else p k2 := rfl

lemma addDefaults_apply (p : Params) (k : String) :
    addDefaults p k =
      if k = "P_0" ∧ (p "P_0").isNone then some (PVal.val 0)
      else if k = "G_0" ∧ (p "G_0").isNone then some PVal.nan
      else if k = "Gprime_0" ∧ (p "Gprime_0").isNone then some PVal.nan
      else p k := by
  unfold addDefaults
  by_cases hP : (p "P_0").isNone <;>
    by_cases hG : (p "G_0").isNone <;>
      by_cases hGp : (p "Gprime_0").isNone <;>
        by_cases k1 : k = "P_0" <;>
          by_cases k2 : k = "G_0" <;>
            by_cases k3 : k = "Gprime_0" <;>
              simp_all [Params.insert_apply]

lemma addDefaults_apply_other (p : Params) (k : String)
    (h1 : k ≠ "P_0") (h2 : k ≠ "G_0") (h3 : k ≠ "Gprime_0") :
    addDefaults p k = p k := by
  rw [addDefaults_apply]
  simp [h1, h2, h3]

lemma addDefaults_apply_some (p : Params) (k : String) (v : PVal)
    (h : p k = some v) : addDefaults p k = some v := by
  rw [addDefaults_apply]
  split_ifs with c1 c2 c3
  · rw [c1.1] at h; rw [h] at c1; simp at c1
  · rw [c2.1] at h; rw [h] at c2; simp at c2
  · rw [c3.1] at h; rw [h] at c3; simp at c3
  · exact h

lemma addDefaults_P0_none (p : Params) (h : p "P_0" = none) :
    addDefaults p "P_0" = some (PVal.val 0) := by
  rw [addDefaults_apply]; simp [h]

lemma addDefaults_G0_none (p : Params) (h : p "G_0" = none) :
    addDefaults p "G_0" = some PVal.nan := by
  rw [addDefaults_apply]; simp [h]

lemma addDefaults_Gp0_none (p : Params) (h : p "Gprime_0" = none) :
    addDefaults p "Gprime_0" = some PVal.nan := by
  rw [addDefaults_apply]; simp [h]

lemma addDefaults_G0_isSome (p : Params) : (addDefaults p "G_0").isSome := by
  rcases h : p "G_0" with _ | v
  · rw [addDefaults_G0_none p h]; rfl
  · rw [addDefaults_apply_some p _ v h]; rfl

lemma addDefaults_Gp0_isSome (p : Params) : (addDefaults p "Gprime_0").isSome := by
  rcases h : p "Gprime_0" with _ | v
  · rw [addDefaults_Gp0_none p h]; rfl
  · rw [addDefaults_apply_some p _ v h]; rfl

lemma validate_eq_error (p : Params) (k : String)
    (hf : expected_keys.find? (fun k => (addDefaults p k).isNone) = some k) :
    RKprime.validate_parameters p =
      Except.error ("params object missing parameter : " ++ k) := by
  unfold RKprime.validate_parameters
  rw [hf]

lemma validate_eq_ok (p : Params)
    (hf : expected_keys.find? (fun k => (addDefaults p k).isNone) = none) :
    RKprime.validate_parameters p =
      Except.ok (addDefaults p, rangeWarnings (addDefaults p)) := by
  unfold RKprime.validate_parameters
  rw [hf]

/-- Claim C5: `validate_parameters` fails with a missing-parameter error
identifying the missing key if and only if, after the `P_0`, `G_0` and
`Gprime_0` defaulting stage, one of the required keys `V_0, K_0, Kprime_0,
Kprime_inf, G_0, Gprime_0` is absent; in particular a parameter set
missing `V_0` fails with the error naming `V_0`. -/
theorem C5_missing_parameter (p : Params) :
    ((∃ e, RKprime.validate_parameters p = Except.error e) ↔
      ∃ k ∈ expected_keys, addDefaults p k = none)
    ∧ (p "V_0" = none →
      RKprime.validate_parameters p =
        Except.error ("params object missing parameter : " ++ "V_0")) := by
  constructor
  · constructor
    · rintro ⟨e, he⟩
      rcases hf : expected_keys.find? (fun k => (addDefaults p k).isNone) with _ | k
      · rw [validate_eq_ok p hf] at he
        exact absurd he (by simp)
      · refine ⟨k, List.mem_of_find?_eq_some hf, ?_⟩
        have hk := List.find?_some hf
        simpa [Option.isNone_iff_eq_none] using hk
    · rintro ⟨k, hk, hnone⟩
      rcases hf : expected_keys.find? (fun k => (addDefaults p k).isNone) with _ | k2
      · exfalso
        have := List.find?_eq_none.mp hf k hk
        simp [hnone] at this
      · exact ⟨_, validate_eq_error p k2 hf⟩
  · intro hV
    have h1 : addDefaults p "V_0" = none := by
      rw [addDefaults_apply_other p _ (by decide) (by decide) (by decide)]
      exact hV
    apply validate_eq_error
    have : expected_keys = "V_0" :: ["K_0", "Kprime_0", "Kprime_inf", "G_0", "Gprime_0"] := rfl
    rw [this]
    exact List.find?_cons_of_pos _ (by simp [h1])

/-- Concrete parameter set of the spec, missing `V_0`. -/
def paramsC5 : Params := fun k =>
  if k = "K_0" then some (PVal.val (16 * 10 ^ 10))
  else if k = "Kprime_0" then some (PVal.val 4)
  else if k = "Kprime_inf" then some (PVal.val 2)
  else none

/-- Claim C5, witness: the spec example `{K_0, Kprime_0, Kprime_inf}`
(missing `V_0`) fails naming `V_0`. -/
theorem C5_missing_parameter_witness :
    paramsC5 "V_0" = none ∧
    RKprime.validate_parameters paramsC5 =
      Except.error ("params object missing parameter : " ++ "V_0") :=
  ⟨by decide, (C5_missing_parameter paramsC5).2 (by decide)⟩

/-- Claim C7: on a parameter set containing the four physical keys and
lacking `P_0`, `G_0`, `Gprime_0`, validation succeeds, `P_0` becomes `0`,
`G_0` and `Gprime_0` become NaN, only those three keys are added, and no
key that was already present is modified. -/
theorem C7_validation_defaults (p : Params)
    (hP : p "P_0" = none) (hG : p "G_0" = none) (hGp : p "Gprime_0" = none)
    (hV : (p "V_0").isSome) (hK : (p "K_0").isSome)
    (hK0 : (p "Kprime_0").isSome) (hKi : (p "Kprime_inf").isSome) :
    ∃ q w, RKprime.validate_parameters p = Except.ok (q, w)
      ∧ q "P_0" = some (PVal.val 0)
      ∧ q "G_0" = some PVal.nan
      ∧ q "Gprime_0" = some PVal.nan
      ∧ (∀ k, k ≠ "P_0" → k ≠ "G_0" → k ≠ "Gprime_0" → q k = p k)
      ∧ (∀ k v, p k = some v → q k = some v) := by
  have hfind : expected_keys.find? (fun k => (addDefaults p k).isNone) = none := by
    rw [List.find?_eq_none]
    intro k hk
    simp only [expected_keys, List.mem_cons, List.not_mem_nil, or_false] at hk
    simp only [Bool.not_eq_true, Option.isNone_eq_false_iff]
    rcases hk with rfl | rfl | rfl | rfl | rfl | rfl
    · rw [addDefaults_apply_other p _ (by decide) (by decide) (by decide)]
      exact hV
    · rw [addDefaults_apply_other p _ (by decide) (by decide) (by decide)]
      exact hK
    · rw [addDefaults_apply_other p _ (by decide) (by decide) (by decide)]
      exact hK0
    · rw [addDefaults_apply_other p _ (by decide) (by decide) (by decide)]
      exact hKi
    · exact addDefaults_G0_isSome p
    · exact addDefaults_Gp0_isSome p
  exact ⟨addDefaults p, rangeWarnings (addDefaults p), validate_eq_ok p hfind,
    addDefaults_P0_none p hP, addDefaults_G0_none p hG, addDefaults_Gp0_none p hGp,
    fun k h1 h2 h3 => addDefaults_apply_other p k h1 h2 h3,
    fun k v hv => addDefaults_apply_some p k v hv⟩

lemma PVal.nan_lt (z : PVal) : PVal.nan.lt z = false := by cases z <;> rfl

lemma PVal.lt_nan (z : PVal) : z.lt PVal.nan = false := by cases z <;> rfl

lemma mem_warn_chunk {b : Bool} {s t : String} :
    (s ∈ (if b then [t] else ([] : List String))) ↔ (b = true ∧ s = t) := by
  cases b <;> simp

/-- Claim C6: an in-dictionary but out-of-range value (for example
`Kprime_inf` below `5/3`) produces a non-fatal warning: validation still
succeeds and the out-of-range value is kept unchanged. -/
theorem C6_out_of_range_warning (p : Params) (kinf : ℚ)
    (hV : (p "V_0").isSome) (hK : (p "K_0").isSome) (hK0 : (p "Kprime_0").isSome)
    (hKi : p "Kprime_inf" = some (PVal.val kinf)) (hlow : kinf < 5 / 3) :
    ∃ q w, RKprime.validate_parameters p = Except.ok (q, w)
      ∧ "Unusual value for Kprime_inf" ∈ w
      ∧ q "Kprime_inf" = some (PVal.val kinf) := by
  have hq : addDefaults p "Kprime_inf" = some (PVal.val kinf) :=
    addDefaults_apply_some p _ _ hKi
  have hfind : expected_keys.find? (fun k => (addDefaults p k).isNone) = none := by
    rw [List.find?_eq_none]
    intro k hk
    simp only [expected_keys, List.mem_cons, List.not_mem_nil, or_false] at hk
    simp only [Bool.not_eq_true, Option.isNone_eq_false_iff]
    rcases hk with rfl | rfl | rfl | rfl | rfl | rfl
    · rw [addDefaults_apply_other p _ (by decide) (by decide) (by decide)]
      exact hV
    · rw [addDefaults_apply_other p _ (by decide) (by decide) (by decide)]
      exact hK
    · rw [addDefaults_apply_other p _ (by decide) (by decide) (by decide)]
      exact hK0
    · rw [hq]; rfl
    · exact addDefaults_G0_isSome p
    · exact addDefaults_Gp0_isSome p
  refine ⟨_, _, validate_eq_ok p hfind, ?_, hq⟩
  have hget : (addDefaults p).get "Kprime_inf" = PVal.val kinf := by
    unfold Params.get
    rw [hq]
    rfl
  have hcond : (PVal.val kinf).lt (PVal.val (5 / 3)) = true := by
    simp [PVal.lt, hlow]
  unfold rangeWarnings
  rw [hget, hcond]
  simp only [Bool.true_or, if_true]
  apply List.mem_append_left
  apply List.mem_append_left
  apply List.mem_append_right
  simp

/-- Concrete parameter set with `Kprime_inf = 1.0`, below `5/3`. -/
def paramsC6 : Params := fun k =>
  if k = "V_0" then some (PVal.val (1 / 10 ^ 5))
  else if k = "K_0" then some (PVal.val (16 * 10 ^ 10))
  else if k = "Kprime_0" then some (PVal.val 4)
  else if k = "Kprime_inf" then some (PVal.val 1)
  else none

/-- Claim C6, witness: `Kprime_inf = 1.0 < 5/3` warns but validates. -/
theorem C6_out_of_range_warning_witness :
    (paramsC6 "V_0").isSome ∧ (paramsC6 "K_0").isSome ∧
    (paramsC6 "Kprime_0").isSome ∧ paramsC6 "Kprime_inf" = some (PVal.val 1) ∧
    (1 : ℚ) < 5 / 3 ∧
    (∃ q w, RKprime.validate_parameters paramsC6 = Except.ok (q, w)
      ∧ "Unusual value for Kprime_inf" ∈ w
      ∧ q "Kprime_inf" = some (PVal.val 1)) :=
  ⟨by decide, by decide, by decide, by decide, by norm_num,
    C6_out_of_range_warning paramsC6 1 (by decide) (by decide) (by decide)
      (by decide) (by norm_num)⟩

lemma not_mem_rangeWarnings_G0 (q : Params) (h : q.get "G_0" = PVal.nan) :
    "Unusual value for G_0" ∉ rangeWarnings q := by
  intro hmem
  unfold rangeWarnings at hmem
  simp [h, PVal.nan_lt, PVal.lt_nan, mem_warn_chunk] at hmem

lemma not_mem_rangeWarnings_Gp0 (q : Params) (h : q.get "Gprime_0" = PVal.nan) :
    "Unusual value for Gprime_0" ∉ rangeWarnings q := by
  intro hmem
  unfold rangeWarnings at hmem
  simp [h, PVal.nan_lt, PVal.lt_nan, mem_warn_chunk] at hmem

/-- Claim C10: a `G_0` or `Gprime_0` defaulted to NaN never triggers its
range warning (NaN comparisons are false), and the missing-parameter error
can never name `G_0` or `Gprime_0`, because those keys are inserted before
the presence check. -/
theorem C10_nan_defaults_silent (p : Params) :
    (∀ q w, p "G_0" = none → RKprime.validate_parameters p = Except.ok (q, w) →
      "Unusual value for G_0" ∉ w)
    ∧ (∀ q w, p "Gprime_0" = none → RKprime.validate_parameters p = Except.ok (q, w) →
      "Unusual value for Gprime_0" ∉ w)
    ∧ (∀ e, RKprime.validate_parameters p = Except.error e →
      e ≠ "params object missing parameter : " ++ "G_0" ∧
      e ≠ "params object missing parameter : " ++ "Gprime_0") := by
  have hok : ∀ q w, RKprime.validate_parameters p = Except.ok (q, w) →
      q = addDefaults p ∧ w = rangeWarnings (addDefaults p) := by
    intro q w he
    rcases hf : expected_keys.find? (fun k => (addDefaults p k).isNone) with _ | k
    · rw [validate_eq_ok p hf] at he
      simpa [eq_comm, and_comm] using he
    · rw [validate_eq_error p k hf] at he
      exact absurd he (by simp)
  refine ⟨?_, ?_, ?_⟩
  · intro q w hG he
    obtain ⟨rfl, rfl⟩ := hok q w he
    apply not_mem_rangeWarnings_G0
    unfold Params.get
    rw [addDefaults_G0_none p hG]
    rfl
  · intro q w hGp he
    obtain ⟨rfl, rfl⟩ := hok q w he
    apply not_mem_rangeWarnings_Gp0
    unfold Params.get
    rw [addDefaults_Gp0_none p hGp]
    rfl
  · intro e he
    rcases hf : expected_keys.find? (fun k => (addDefaults p k).isNone) with _ | k
    · rw [validate_eq_ok p hf] at he
      exact absurd he (by simp)
    · rw [validate_eq_error p k hf] at he
      have hkmem := List.mem_of_find?_eq_some hf
      have hknone := List.find?_some hf
      have hkG : k ≠ "G_0" := by
        rintro rfl
        have := addDefaults_G0_isSome p
        simp at hknone
        rw [hknone] at this
        exact absurd this (by decide)
      have hkGp : k ≠ "Gprime_0" := by
        rintro rfl
        have := addDefaults_Gp0_isSome p
        simp at hknone
        rw [hknone] at this
        exact absurd this (by decide)
      have he2 : e = "params object missing parameter : " ++ k := by
        simpa [eq_comm] using he
      subst he2
      simp only [expected_keys, List.mem_cons, List.not_mem_nil, or_false] at hkmem
      rcases hkmem with rfl | rfl | rfl | rfl | rfl | rfl
      · exact ⟨by decide, by decide⟩
      · exact ⟨by decide, by decide⟩
      · exact ⟨by decide, by decide⟩
      · exact ⟨by decide, by decide⟩
      · exact absurd rfl hkG
      · exact absurd rfl hkGp

/-- Concrete parameter set for the NaN-default silence check. -/
def paramsC10 : Params := fun k =>
  if k = "V_0" then some (PVal.val (1 / 10 ^ 5))
  else if k = "K_0" then some (PVal.val (16 * 10 ^ 10))
  else if k = "Kprime_0" then some (PVal.val 4)
  else if k = "Kprime_inf" then some (PVal.val 2)
  else none

/-- Claim C10, witness: a parameter set with `G_0` and `Gprime_0` absent
validates, and its warning list contains neither shear-parameter warning. -/
theorem C10_nan_defaults_silent_witness :
    paramsC10 "G_0" = none ∧ paramsC10 "Gprime_0" = none ∧
    RKprime.validate_parameters paramsC10 =
      Except.ok (addDefaults paramsC10, rangeWarnings (addDefaults paramsC10)) ∧
    "Unusual value for G_0" ∉ rangeWarnings (addDefaults paramsC10) ∧
    "Unusual value for Gprime_0" ∉ rangeWarnings (addDefaults paramsC10) := by
  have hok : RKprime.validate_parameters paramsC10 =
      Except.ok (addDefaults paramsC10, rangeWarnings (addDefaults paramsC10)) :=
    validate_eq_ok paramsC10 (by decide)
  exact ⟨by decide, by decide, hok,
    (C10_nan_defaults_silent paramsC10).1 _ _ (by decide) hok,
    (C10_nan_defaults_silent paramsC10).2.1 _ _ (by decide) hok⟩

/-- Concrete parameter set of the spec for the defaulting test. -/
def paramsC7 : Params := fun k =>
  if k = "V_0" then some (PVal.val (1 / 10 ^ 5))
  else if k = "K_0" then some (PVal.val (16 * 10 ^ 10))
  else if k = "Kprime_0" then some (PVal.val 4)
  else if k = "Kprime_inf" then some (PVal.val 2)
  else none

/-- Claim C7, witness: the spec example, with `P_0`, `G_0`, `Gprime_0`
absent, validates with the documented defaults. -/
theorem C7_validation_defaults_witness :
    paramsC7 "P_0" = none ∧ paramsC7 "G_0" = none ∧ paramsC7 "Gprime_0" = none ∧
    (paramsC7 "V_0").isSome ∧ (paramsC7 "K_0").isSome ∧
    (paramsC7 "Kprime_0").isSome ∧ (paramsC7 "Kprime_inf").isSome ∧
    (∃ q w, RKprime.validate_parameters paramsC7 = Except.ok (q, w)
      ∧ q "P_0" = some (PVal.val 0)
      ∧ q "G_0" = some PVal.nan
      ∧ q "Gprime_0" = some PVal.nan
      ∧ (∀ k, k ≠ "P_0" → k ≠ "G_0" → k ≠ "Gprime_0" → q k = paramsC7 k)
      ∧ (∀ k v, paramsC7 k = some v → q k = some v)) :=
  ⟨by decide, by decide, by decide, by decide, by decide, by decide, by decide,
    C7_validation_defaults paramsC7 (by decide) (by decide) (by decide)
      (by decide) (by decide) (by decide) (by decide)⟩

/-!
## Physical layer

Parameters reaching the physical evaluations are the four numeric
coefficients (the invariant of the spec: `validate_parameters` has run, so
`V_0, K_0, Kprime_0, Kprime_inf` are present and numeric).
-/

/-- The numeric parameters used by the physical evaluations. -/
structure PhysParams where
  V_0 : ℝ
  K_0 : ℝ
  Kprime_0 : ℝ
  Kprime_inf : ℝ

/-- Residual `_delta_PoverK_from_P` (eq. 58): the pressure-driven residual. -/
noncomputable def delta_PoverK_from_P
    (PoverK pressure K_0 Kprime_0 Kprime_inf : ℝ) : ℝ :=
  PoverK - pressure / K_0 * (1 - Kprime_inf * PoverK) ^ (Kprime_0 / Kprime_inf)

/-- Residual `_delta_PoverK_from_V` (eq. 61): the volume-driven residual, with the
intermediate `Kprime_ratio = Kprime_0 / Kprime_inf` of the source. -/
noncomputable def delta_PoverK_from_V
    (PoverK V V_0 K_0 Kprime_0 Kprime_inf : ℝ) : ℝ :=
  Real.log (V_0 / V)
    + Kprime_0 / Kprime_inf / Kprime_inf * Real.log (1 - Kprime_inf * PoverK)
    + (Kprime_0 / Kprime_inf - 1) * PoverK

/-- The formula of the spec for the pressure residual, as in section 4.1. -/
noncomputable def spec_delta_PoverK_from_P
    (PoverK pressure K_0 Kprime_0 Kprime_inf : ℝ) : ℝ :=
  PoverK - pressure / K_0 * (1 - Kprime_inf * PoverK) ^ (Kprime_0 / Kprime_inf)

/-- The formula of the spec for the volume residual, as in section 4.1,
with the squared denominator. -/
noncomputable def spec_delta_PoverK_from_V
    (PoverK V V_0 K_0 Kprime_0 Kprime_inf : ℝ) : ℝ :=
  Real.log (V_0 / V)
    + Kprime_0 / Kprime_inf ^ 2 * Real.log (1 - Kprime_inf * PoverK)
    + (Kprime_0 / Kprime_inf - 1) * PoverK

/-- Function `np.log`, extended-real valued: `np.log 0 = -inf`.  The root-finding
brackets only ever evaluate the residuals at arguments `>= -1`, where the
log argument is nonnegative, so the negative branch (NaN in numpy) is
never reached. -/
noncomputable def np_log (x : ℝ) : EReal :=
  if x = 0 then (⊥ : EReal) else ((Real.log x : ℝ) : EReal)

/-- The pressure residual as handed to the root finder (it never takes
infinite values: `np.power 0 r = 0` for `r > 0`). -/
noncomputable def fP_ext (pressure K_0 Kprime_0 Kprime_inf : ℝ) (PoverK : ℝ) : EReal :=
  ((delta_PoverK_from_P PoverK pressure K_0 Kprime_0 Kprime_inf : ℝ) : EReal)

/-- The volume residual as handed to the root finder: at the upper bracket
endpoint the log argument is `0` and the residual is `-inf`. -/
noncomputable def fV_ext (V V_0 K_0 Kprime_0 Kprime_inf : ℝ) (PoverK : ℝ) : EReal :=
  ((Real.log (V_0 / V) : ℝ) : EReal)
    + ((Kprime_0 / Kprime_inf / Kprime_inf : ℝ) : EReal) * np_log (1 - Kprime_inf * PoverK)
    + (((Kprime_0 / Kprime_inf - 1) * PoverK : ℝ) : EReal)

/-- Modelled from the spec (section 6, external root-finding capability,
and section 4.2): `scipy.optimize.brentq` on a bracket `[a, b]`, idealized
to exact arithmetic.  It may return any root inside the bracket (including
an endpoint at which the function vanishes, which brentq returns
immediately); it fails with the no-sign-change error when the function has
the same nonzero sign at the two endpoints.  This relation
over-approximates the concrete solver: every actual outcome is admitted. -/
inductive brentq (f : ℝ → EReal) (a b : ℝ) : Except String ℝ → Prop where
  | root (x : ℝ) (hax : a ≤ x) (hxb : x ≤ b) (hfx : f x = 0) :
      brentq f a b (Except.ok x)
  | no_sign_change
      (h : ¬ ((f a < 0 ∧ 0 < f b) ∨ (0 < f a ∧ f b < 0) ∨ f a = 0 ∨ f b = 0)) :
      brentq f a b (Except.error "f(a) and f(b) must have different signs")

/-- Wrapper `_PoverK_from_P`: root of the pressure residual over the bracket
`(-1, 1/Kprime_inf)`. -/
def PoverK_from_P (pressure : ℝ) (p : PhysParams) (out : Except String ℝ) : Prop :=
  brentq (fP_ext pressure p.K_0 p.Kprime_0 p.Kprime_inf) (-1) (1 / p.Kprime_inf) out

/-- Wrapper `_PoverK_from_V`: root of the volume residual over the same bracket. -/
def PoverK_from_V (volume : ℝ) (p : PhysParams) (out : Except String ℝ) : Prop :=
  brentq (fV_ext volume p.V_0 p.K_0 p.Kprime_0 p.Kprime_inf) (-1) (1 / p.Kprime_inf) out

/-- The closed-form volume computed from a `PoverK` root (eq. 61). -/
noncomputable def volumeFromPoverK (p : PhysParams) (PoverK : ℝ) : ℝ :=
  p.V_0 * Real.exp (p.Kprime_0 / p.Kprime_inf / p.Kprime_inf
      * Real.log (1 - p.Kprime_inf * PoverK)
    + (p.Kprime_0 / p.Kprime_inf - 1) * PoverK)

/-- The closed-form pressure computed from a `PoverK` root. -/
noncomputable def pressureFromPoverK (p : PhysParams) (PoverK : ℝ) : ℝ :=
  p.K_0 * PoverK * (1 - p.Kprime_inf * PoverK) ^ (-(p.Kprime_0 / p.Kprime_inf))

/-- The closed-form bulk modulus computed from a `PoverK` root. -/
noncomputable def KFromPoverK (p : PhysParams) (PoverK : ℝ) : ℝ :=
  p.K_0 * (1 - p.Kprime_inf * PoverK) ^ (-(p.Kprime_0 / p.Kprime_inf))

/-- Method `RKprime.volume`: solve the pressure residual, then apply eq. 61.
Solver failure propagates to the caller.  The temperature argument is
accepted and ignored, as in the source. -/
def RKprime.volume (pressure temperature : ℝ) (p : PhysParams)
    (out : Except String ℝ) : Prop :=
  (∃ x, PoverK_from_P pressure p (Except.ok x)
      ∧ out = Except.ok (volumeFromPoverK p x))
  ∨ (∃ e, PoverK_from_P pressure p (Except.error e) ∧ out = Except.error e)

/-- Method `RKprime.pressure`: solve the volume residual, then apply eq. 58. -/
def RKprime.pressure (temperature volume : ℝ) (p : PhysParams)
    (out : Except String ℝ) : Prop :=
  (∃ x, PoverK_from_V volume p (Except.ok x)
      ∧ out = Except.ok (pressureFromPoverK p x))
  ∨ (∃ e, PoverK_from_V volume p (Except.error e) ∧ out = Except.error e)

/-- Module-level `bulk_modulus`. -/
def bulk_modulus (pressure : ℝ) (p : PhysParams) (out : Except String ℝ) : Prop :=
  (∃ x, PoverK_from_P pressure p (Except.ok x)
      ∧ out = Except.ok (KFromPoverK p x))
  ∨ (∃ e, PoverK_from_P pressure p (Except.error e) ∧ out = Except.error e)

/-- Module-level `shear_modulus`: always zero. -/
def shear_modulus (pressure : ℝ) (p : PhysParams) : ℝ := 0

/-- Method `RKprime.isothermal_bulk_modulus`. -/
def RKprime.isothermal_bulk_modulus (pressure temperature volume : ℝ)
    (p : PhysParams) (out : Except String ℝ) : Prop :=
  bulk_modulus pressure p out

/-- Method `RKprime.adiabatic_bulk_modulus`. -/
def RKprime.adiabatic_bulk_modulus (pressure temperature volume : ℝ)
    (p : PhysParams) (out : Except String ℝ) : Prop :=
  bulk_modulus pressure p out

/-- Alias for the module-level `shear_modulus`, needed because inside the
method definition the bare name would refer to the method itself. -/
def shearModulusFn : ℝ → PhysParams → ℝ := shear_modulus

/-- Method `RKprime.shear_modulus`: delegates to the module-level function. -/
def RKprime.shear_modulus (pressure temperature volume : ℝ) (p : PhysParams) : ℝ :=
  shearModulusFn pressure p

/-- Method `RKprime.heat_capacity_v`: the sentinel very large number. -/
def RKprime.heat_capacity_v (pressure temperature volume : ℝ) (p : PhysParams) : ℝ :=
  1e99

/-- Method `RKprime.heat_capacity_p`: the sentinel very large number. -/
def RKprime.heat_capacity_p (pressure temperature volume : ℝ) (p : PhysParams) : ℝ :=
  1e99

/-- Method `RKprime.thermal_expansivity`: always zero. -/
def RKprime.thermal_expansivity (pressure temperature volume : ℝ) (p : PhysParams) : ℝ :=
  0

/-- Method `RKprime.grueneisen_parameter`: always zero. -/
def RKprime.grueneisen_parameter (pressure temperature volume : ℝ) (p : PhysParams) : ℝ :=
  0

/-- Claim C3: the two residuals are pure scalar functions computing
exactly the formulas of the spec; the nested division of the source
`Kprime_0 / Kprime_inf / Kprime_inf` equals the form
`Kprime_0 / Kprime_inf ^ 2`. -/
theorem C3_residual_formulas
    (PoverK pressure V V_0 K_0 Kprime_0 Kprime_inf : ℝ) :
    delta_PoverK_from_P PoverK pressure K_0 Kprime_0 Kprime_inf =
      spec_delta_PoverK_from_P PoverK pressure K_0 Kprime_0 Kprime_inf
    ∧ delta_PoverK_from_V PoverK V V_0 K_0 Kprime_0 Kprime_inf =
      spec_delta_PoverK_from_V PoverK V V_0 K_0 Kprime_0 Kprime_inf := by
  refine ⟨rfl, ?_⟩
  unfold delta_PoverK_from_V spec_delta_PoverK_from_V
  ring

/-- Claim C4: shear modulus, thermal expansivity and Grueneisen parameter
are identically `0`, and both heat capacities are identically `1e99`, for
all inputs. -/
theorem C4_constant_properties (pressure temperature volume : ℝ) (p : PhysParams) :
    RKprime.shear_modulus pressure temperature volume p = 0
    ∧ RKprime.thermal_expansivity pressure temperature volume p = 0
    ∧ RKprime.grueneisen_parameter pressure temperature volume p = 0
    ∧ RKprime.heat_capacity_v pressure temperature volume p = 1e99
    ∧ RKprime.heat_capacity_p pressure temperature volume p = 1e99 :=
  ⟨rfl, rfl, rfl, rfl, rfl⟩

/-- Claim C8: the adiabatic bulk modulus is computed exactly as the
isothermal one — both delegate to the module-level `bulk_modulus` of the
pressure alone, with no thermal correction. -/
theorem C8_adiabatic_eq_isothermal (pressure temperature volume : ℝ)
    (p : PhysParams) (out : Except String ℝ) :
    (RKprime.adiabatic_bulk_modulus pressure temperature volume p out ↔
      RKprime.isothermal_bulk_modulus pressure temperature volume p out)
    ∧ (RKprime.adiabatic_bulk_modulus pressure temperature volume p out ↔
      bulk_modulus pressure p out) :=
  ⟨Iff.rfl, Iff.rfl⟩

/-- Claim C9: two-run noninterference in the temperature argument: the
volume and pressure computations are literally independent of it. -/
theorem C9_temperature_noninterference (P V T1 T2 : ℝ) (p : PhysParams)
    (out : Except String ℝ) :
    (RKprime.volume P T1 p out ↔ RKprime.volume P T2 p out)
    ∧ (RKprime.pressure T1 V p out ↔ RKprime.pressure T2 V p out) :=
  ⟨Iff.rfl, Iff.rfl⟩

lemma fP_ext_at_boundary (pressure K_0 Kprime_0 Kprime_inf : ℝ)
    (hKi : 0 < Kprime_inf) (hK0 : Kprime_0 ≠ 0) :
    fP_ext pressure K_0 Kprime_0 Kprime_inf (1 / Kprime_inf) =
      ((1 / Kprime_inf : ℝ) : EReal) := by
  unfold fP_ext delta_PoverK_from_P
  have h1 : 1 - Kprime_inf * (1 / Kprime_inf) = 0 := by
    field_simp
  rw [h1, Real.zero_rpow (div_ne_zero hK0 (ne_of_gt hKi))]
  norm_num

lemma fV_ext_at_boundary (V V_0 K_0 Kprime_0 Kprime_inf : ℝ)
    (hKi : 0 < Kprime_inf) (hK0 : 0 < Kprime_0) :
    fV_ext V V_0 K_0 Kprime_0 Kprime_inf (1 / Kprime_inf) = ⊥ := by
  unfold fV_ext
  have h1 : 1 - Kprime_inf * (1 / Kprime_inf) = 0 := by field_simp
  rw [h1]
  unfold np_log
  rw [if_pos rfl]
  have hrho : (0 : ℝ) < Kprime_0 / Kprime_inf / Kprime_inf := by positivity
  rw [EReal.coe_mul_bot_of_pos hrho, EReal.add_bot, EReal.bot_add]

lemma fV_ext_coe (V V_0 K_0 Kprime_0 Kprime_inf PoverK : ℝ)
    (h : 1 - Kprime_inf * PoverK ≠ 0) :
    fV_ext V V_0 K_0 Kprime_0 Kprime_inf PoverK =
      ((delta_PoverK_from_V PoverK V V_0 K_0 Kprime_0 Kprime_inf : ℝ) : EReal) := by
  unfold fV_ext np_log delta_PoverK_from_V
  rw [if_neg h]
  norm_cast

/-- Claim C2: under the documented validity range
`5/3 ≤ Kprime_inf ≤ Kprime_0`, any `PoverK` returned by either
root-finding wrapper is strictly below `1/Kprime_inf`; the residuals are
nonzero at that boundary (the pressure residual equals `1/Kprime_inf > 0`
there and the volume residual is `-inf`), so no root-finder outcome ever
needs the boundary point. -/
theorem C2_domain_boundary (p : PhysParams) (pressure V x : ℝ)
    (h53 : 5 / 3 ≤ p.Kprime_inf) (hKK : p.Kprime_inf ≤ p.Kprime_0) :
    (PoverK_from_P pressure p (Except.ok x) → x < 1 / p.Kprime_inf)
    ∧ (PoverK_from_V V p (Except.ok x) → x < 1 / p.Kprime_inf)
    ∧ fP_ext pressure p.K_0 p.Kprime_0 p.Kprime_inf (1 / p.Kprime_inf) ≠ 0
    ∧ fV_ext V p.V_0 p.K_0 p.Kprime_0 p.Kprime_inf (1 / p.Kprime_inf) = ⊥ := by
  have hKi : 0 < p.Kprime_inf := lt_of_lt_of_le (by norm_num) h53
  have hK0 : 0 < p.Kprime_0 := lt_of_lt_of_le hKi hKK
  have hb : 0 < 1 / p.Kprime_inf := by positivity
  have hPb := fP_ext_at_boundary pressure p.K_0 p.Kprime_0 p.Kprime_inf hKi (ne_of_gt hK0)
  have hPne : fP_ext pressure p.K_0 p.Kprime_0 p.Kprime_inf (1 / p.Kprime_inf) ≠ 0 := by
    rw [hPb]
    simp only [ne_eq, EReal.coe_eq_zero]
    exact ne_of_gt hb
  have hVb := fV_ext_at_boundary V p.V_0 p.K_0 p.Kprime_0 p.Kprime_inf hKi hK0
  refine ⟨?_, ?_, hPne, hVb⟩
  · intro hok
    cases hok with
    | root x hax hxb hfx =>
      rcases lt_or_eq_of_le hxb with h | h
      · exact h
      · exact absurd (h ▸ hfx) hPne
  · intro hok
    cases hok with
    | root x hax hxb hfx =>
      rcases lt_or_eq_of_le hxb with h | h
      · exact h
      · rw [h, hVb] at hfx
        exact absurd hfx (by simp)

/-- A physically plausible parameter set for the boundary witness. -/
noncomputable def paramsPhysC2 : PhysParams := ⟨1e-5, 1.6e11, 4, 2⟩

/-- Claim C2, witness at a concrete valid parameter set. -/
theorem C2_domain_boundary_witness :
    5 / 3 ≤ paramsPhysC2.Kprime_inf ∧ paramsPhysC2.Kprime_inf ≤ paramsPhysC2.Kprime_0 ∧
    ((PoverK_from_P 0 paramsPhysC2 (Except.ok 0) → (0 : ℝ) < 1 / paramsPhysC2.Kprime_inf)
      ∧ (PoverK_from_V 1e-5 paramsPhysC2 (Except.ok 0) → (0 : ℝ) < 1 / paramsPhysC2.Kprime_inf)
      ∧ fP_ext 0 paramsPhysC2.K_0 paramsPhysC2.Kprime_0 paramsPhysC2.Kprime_inf
          (1 / paramsPhysC2.Kprime_inf) ≠ 0
      ∧ fV_ext 1e-5 paramsPhysC2.V_0 paramsPhysC2.K_0 paramsPhysC2.Kprime_0
          paramsPhysC2.Kprime_inf (1 / paramsPhysC2.Kprime_inf) = ⊥) :=
  ⟨by norm_num [paramsPhysC2], by norm_num [paramsPhysC2],
    C2_domain_boundary paramsPhysC2 0 1e-5 0 (by norm_num [paramsPhysC2])
      (by norm_num [paramsPhysC2])⟩

lemma log_strict_concave_pt {u1 u2 t : ℝ} (h1 : 0 < u1) (h2 : 0 < u2)
    (hne : u1 ≠ u2) (ht0 : 0 < t) (ht1 : t < 1) :
    t * Real.log u1 + (1 - t) * Real.log u2 < Real.log (t * u1 + (1 - t) * u2) := by
  have h := strictConcaveOn_log_Ioi.2 (Set.mem_Ioi.mpr h1) (Set.mem_Ioi.mpr h2) hne
    ht0 (show (0 : ℝ) < 1 - t by linarith) (show t + (1 - t) = 1 by ring)
  simpa [smul_eq_mul] using h

/-- Key analytic fact behind the uniqueness of the volume-residual root:
the map `z ↦ rho * log (1 - c*z) + l*z` is strictly concave on the bracket,
so any interior point `w` of `[-1, z]` lies strictly above the chord. -/
lemma G_chord (c rho l : ℝ) (hc : 0 < c) (hrho : 0 < rho)
    (w z : ℝ) (hw : -1 < w) (hwz : w < z) (hz : 0 < 1 - c * z) :
    ∃ t : ℝ, 0 < t ∧ t < 1 ∧
      t * (rho * Real.log (1 + c) + l * (-1))
        + (1 - t) * (rho * Real.log (1 - c * z) + l * z)
      < rho * Real.log (1 - c * w) + l * w := by
  have hz1 : 0 < z + 1 := by linarith
  refine ⟨(z - w) / (z + 1), div_pos (by linarith) hz1, ?_, ?_⟩
  · rw [div_lt_one hz1]; linarith
  · have ht0 : 0 < (z - w) / (z + 1) := div_pos (by linarith) hz1
    have ht1 : (z - w) / (z + 1) < 1 := by rw [div_lt_one hz1]; linarith
    have hzw : w = ((z - w) / (z + 1)) * (-1) + (1 - (z - w) / (z + 1)) * z := by
      field_simp
      ring
    have hcomb : 1 - c * w =
        ((z - w) / (z + 1)) * (1 + c) + (1 - (z - w) / (z + 1)) * (1 - c * z) := by
      field_simp
      ring
    have hne12 : (1 + c) ≠ (1 - c * z) := by
      intro hE
      have hcz : c * (z + 1) = 0 := by linarith
      exact absurd hcz (ne_of_gt (mul_pos hc hz1))
    have hlog := log_strict_concave_pt (show (0:ℝ) < 1 + c by linarith) hz hne12 ht0 ht1
    rw [← hcomb] at hlog
    have hmul : rho * (((z - w) / (z + 1)) * Real.log (1 + c)
          + (1 - (z - w) / (z + 1)) * Real.log (1 - c * z))
        < rho * Real.log (1 - c * w) := (mul_lt_mul_left hrho).mpr hlog
    have hrearr : ((z - w) / (z + 1)) * (rho * Real.log (1 + c) + l * (-1))
          + (1 - (z - w) / (z + 1)) * (rho * Real.log (1 - c * z) + l * z)
        = rho * (((z - w) / (z + 1)) * Real.log (1 + c)
            + (1 - (z - w) / (z + 1)) * Real.log (1 - c * z))
          + l * (((z - w) / (z + 1)) * (-1) + (1 - (z - w) / (z + 1)) * z) := by
      ring
    rw [hrearr, ← hzw]
    linarith

/-- Uniqueness of the volume-residual root in the bracket, given that the
residual is positive at the lower endpoint (the sign-change precondition
of the bracketed root finder). -/
lemma G_val_inj (c rho l : ℝ) (hc : 0 < c) (hrho : 0 < rho) {x y : ℝ}
    (hx1 : -1 ≤ x) (hy1 : -1 ≤ y) (hxs : 0 < 1 - c * x) (hys : 0 < 1 - c * y)
    (hsign : rho * Real.log (1 - c * x) + l * x <
      rho * Real.log (1 + c) + l * (-1))
    (heq : rho * Real.log (1 - c * y) + l * y =
      rho * Real.log (1 - c * x) + l * x) :
    y = x := by
  by_contra hne
  have h1c : (1 : ℝ) - c * (-1) = 1 + c := by ring
  rcases lt_or_gt_of_ne hne with hlt | hgt
  · have hy1' : -1 < y := by
      rcases eq_or_lt_of_le hy1 with hE | hE
      · exfalso
        rw [← hE, h1c] at heq
        linarith
      · exact hE
    obtain ⟨t, ht0, ht1, hkey⟩ := G_chord c rho l hc hrho y x hy1' hlt hxs
    have hprod := mul_pos ht0 (sub_pos.mpr hsign)
    nlinarith [hkey, heq, hprod]
  · have hx1' : -1 < x := by
      rcases eq_or_lt_of_le hx1 with hE | hE
      · exfalso
        rw [← hE, h1c] at hsign
        linarith
      · exact hE
    obtain ⟨t, ht0, ht1, hkey⟩ := G_chord c rho l hc hrho x y hx1' hgt hys
    rw [heq] at hkey
    have hprod := mul_pos ht0 (sub_pos.mpr hsign)
    nlinarith [hkey, hprod]

/-- Properties of any root of the pressure residual in the bracket, for
valid parameters and nonnegative pressure: the root is nonnegative,
strictly inside the bracket, the power-law base is positive, and the
closed-form pressure recovers the input pressure exactly. -/
lemma P_root_props (p : PhysParams) (P x : ℝ) (hK0 : 0 < p.K_0)
    (hKi : 0 < p.Kprime_inf) (hK0p : 0 < p.Kprime_0) (hP : 0 ≤ P)
    (hxb : x ≤ 1 / p.Kprime_inf)
    (hfx : delta_PoverK_from_P x P p.K_0 p.Kprime_0 p.Kprime_inf = 0) :
    0 ≤ x ∧ x < 1 / p.Kprime_inf ∧ 0 < 1 - p.Kprime_inf * x ∧
      pressureFromPoverK p x = P := by
  have hr : p.Kprime_0 / p.Kprime_inf ≠ 0 := ne_of_gt (div_pos hK0p hKi)
  have hxKi : x * p.Kprime_inf ≤ 1 := (le_div_iff hKi).mp hxb
  have hs0 : 0 ≤ 1 - p.Kprime_inf * x := by nlinarith
  have hxeq : x = P / p.K_0 * (1 - p.Kprime_inf * x) ^ (p.Kprime_0 / p.Kprime_inf) := by
    unfold delta_PoverK_from_P at hfx
    linarith
  have hx0 : 0 ≤ x := by
    rw [hxeq]
    exact mul_nonneg (div_nonneg hP hK0.le) (Real.rpow_nonneg hs0 _)
  have hxlt : x < 1 / p.Kprime_inf := by
    rcases lt_or_eq_of_le hxb with h | h
    · exact h
    · exfalso
      have hs00 : 1 - p.Kprime_inf * x = 0 := by
        rw [h]
        field_simp
      rw [hs00, Real.zero_rpow hr, mul_zero] at hxeq
      rw [h] at hxeq
      have hpos : (0 : ℝ) < 1 / p.Kprime_inf := by positivity
      linarith
  have hs : 0 < 1 - p.Kprime_inf * x := by
    have := (lt_div_iff hKi).mp hxlt
    nlinarith
  refine ⟨hx0, hxlt, hs, ?_⟩
  have key := congrArg (fun z => p.K_0 * z) hxeq
  simp only at key
  have key2 : p.K_0 * x
      = P * (1 - p.Kprime_inf * x) ^ (p.Kprime_0 / p.Kprime_inf) := by
    rw [key]
    field_simp
  unfold pressureFromPoverK
  rw [key2, mul_assoc, ← Real.rpow_add hs, add_neg_cancel, Real.rpow_zero, mul_one]

/-- The log of `V_0` over the computed volume is minus the exponent of
eq. 61 evaluated at the root. -/
lemma volume_log (p : PhysParams) (x : ℝ) (hV0 : 0 < p.V_0) :
    Real.log (p.V_0 / volumeFromPoverK p x) =
      -(p.Kprime_0 / p.Kprime_inf / p.Kprime_inf * Real.log (1 - p.Kprime_inf * x)
        + (p.Kprime_0 / p.Kprime_inf - 1) * x) := by
  unfold volumeFromPoverK
  rw [show p.V_0 / (p.V_0 * Real.exp (p.Kprime_0 / p.Kprime_inf / p.Kprime_inf
        * Real.log (1 - p.Kprime_inf * x) + (p.Kprime_0 / p.Kprime_inf - 1) * x))
      = Real.exp (-(p.Kprime_0 / p.Kprime_inf / p.Kprime_inf
        * Real.log (1 - p.Kprime_inf * x) + (p.Kprime_0 / p.Kprime_inf - 1) * x)) by
    rw [Real.exp_neg]
    field_simp]
  exact Real.log_exp _

/-- At zero pressure the pressure residual root is `0` and the computed
volume is exactly `V_0`. -/
lemma volume_at_zero_pressure (p : PhysParams) (T : ℝ) (hKi : 0 < p.Kprime_inf) :
    RKprime.volume 0 T p (Except.ok p.V_0) := by
  left
  refine ⟨0, brentq.root 0 (by norm_num) (by positivity) ?_, ?_⟩
  · unfold fP_ext delta_PoverK_from_P
    norm_num
  · unfold volumeFromPoverK
    norm_num

/-- Claim C1 (amended): for a valid parameter set and nonnegative
pressure, whenever the volume residual satisfies the root finder
sign-change precondition (it is positive at the lower bracket endpoint;
at the upper endpoint it is always `-inf`), every outcome of
`pressure(T2, volume(pressure, T1, params), params)` is exactly the
original pressure. -/
theorem C1_round_trip (p : PhysParams) (P T1 T2 V : ℝ)
    (hV0 : 0 < p.V_0) (hK0 : 0 < p.K_0)
    (h53 : 5 / 3 ≤ p.Kprime_inf) (hKK : p.Kprime_inf ≤ p.Kprime_0)
    (hP : 0 ≤ P)
    (hvol : RKprime.volume P T1 p (Except.ok V))
    (hsign : 0 < fV_ext V p.V_0 p.K_0 p.Kprime_0 p.Kprime_inf (-1)) :
    ∀ out, RKprime.pressure T2 V p out → out = Except.ok P := by
  have hKi : 0 < p.Kprime_inf := lt_of_lt_of_le (by norm_num) h53
  have hK0p : 0 < p.Kprime_0 := lt_of_lt_of_le hKi hKK
  have hrho : 0 < p.Kprime_0 / p.Kprime_inf / p.Kprime_inf := by positivity
  rcases hvol with ⟨x, hbr, hout⟩ | ⟨e, _, habs⟩
  swap
  · exact absurd habs (by simp)
  have hV : V = volumeFromPoverK p x := by
    simpa using hout
  subst hV
  obtain ⟨hax, hxb, hfxr⟩ : -1 ≤ x ∧ x ≤ 1 / p.Kprime_inf ∧
      delta_PoverK_from_P x P p.K_0 p.Kprime_0 p.Kprime_inf = 0 := by
    cases hbr with
    | root x0 hax0 hxb0 hfx0 =>
      refine ⟨hax0, hxb0, ?_⟩
      unfold fP_ext at hfx0
      exact_mod_cast hfx0
  obtain ⟨hx0, hxlt, hs, hform⟩ := P_root_props p P x hK0 hKi hK0p hP hxb hfxr
  have harg1 : (1 : ℝ) - p.Kprime_inf * (-1) ≠ 0 := by nlinarith
  have h1c : (1 : ℝ) - p.Kprime_inf * (-1) = 1 + p.Kprime_inf := by ring
  have hsign' : p.Kprime_0 / p.Kprime_inf / p.Kprime_inf
        * Real.log (1 - p.Kprime_inf * x) + (p.Kprime_0 / p.Kprime_inf - 1) * x
      < p.Kprime_0 / p.Kprime_inf / p.Kprime_inf
        * Real.log (1 + p.Kprime_inf) + (p.Kprime_0 / p.Kprime_inf - 1) * (-1) := by
    rw [fV_ext_coe _ _ _ _ _ _ harg1] at hsign
    have h0 := EReal.coe_pos.mp hsign
    unfold delta_PoverK_from_V at h0
    rw [volume_log p x hV0, h1c] at h0
    linarith
  intro out hpres
  rcases hpres with ⟨y, hbry, houty⟩ | ⟨e, herr, houte⟩
  · obtain ⟨hay, hyb, hfyE⟩ : -1 ≤ y ∧ y ≤ 1 / p.Kprime_inf ∧
        fV_ext (volumeFromPoverK p x) p.V_0 p.K_0 p.Kprime_0 p.Kprime_inf y = 0 := by
      cases hbry with
      | root y0 hay0 hyb0 hfy0 => exact ⟨hay0, hyb0, hfy0⟩
    have hylt : y < 1 / p.Kprime_inf := by
      rcases lt_or_eq_of_le hyb with h | h
      · exact h
      · exfalso
        rw [h, fV_ext_at_boundary _ _ _ _ _ hKi hK0p] at hfyE
        exact absurd hfyE (by simp)
    have hys : 0 < 1 - p.Kprime_inf * y := by
      have := (lt_div_iff hKi).mp hylt
      nlinarith
    have hfyr : delta_PoverK_from_V y (volumeFromPoverK p x)
        p.V_0 p.K_0 p.Kprime_0 p.Kprime_inf = 0 := by
      rw [fV_ext_coe _ _ _ _ _ _ (ne_of_gt hys)] at hfyE
      exact_mod_cast hfyE
    have heq : p.Kprime_0 / p.Kprime_inf / p.Kprime_inf
          * Real.log (1 - p.Kprime_inf * y) + (p.Kprime_0 / p.Kprime_inf - 1) * y
        = p.Kprime_0 / p.Kprime_inf / p.Kprime_inf
          * Real.log (1 - p.Kprime_inf * x) + (p.Kprime_0 / p.Kprime_inf - 1) * x := by
      unfold delta_PoverK_from_V at hfyr
      rw [volume_log p x hV0] at hfyr
      linarith
    have hyx : y = x :=
      G_val_inj p.Kprime_inf (p.Kprime_0 / p.Kprime_inf / p.Kprime_inf)
        (p.Kprime_0 / p.Kprime_inf - 1) hKi hrho hax hay hs hys hsign' heq
    rw [hyx, hform] at houty
    exact houty
  · exfalso
    cases herr with
    | no_sign_change hnsc =>
      apply hnsc
      right; left
      refine ⟨hsign, ?_⟩
      rw [fV_ext_at_boundary _ _ _ _ _ hKi hK0p]
      exact EReal.bot_lt_zero

/-- A valid parameter set (`Kprime_inf = 5/3 ≤ Kprime_0 = 10 ≤ 10`) on
which the round trip breaks down at zero pressure. -/
noncomputable def paramsCex : PhysParams := ⟨1e-5, 1.6e11, 10, 5 / 3⟩

/-- Claim C1, counterexample: for the valid parameter set `paramsCex` and
pressure `0`, `volume` succeeds (returning `V_0`), but the subsequent
`pressure` call admits only the no-sign-change failure outcome at that
volume — the volume residual is negative at both bracket endpoints — so
the composition does not return the original pressure. -/
theorem C1_round_trip_counterexample :
    (5 / 3 : ℝ) ≤ paramsCex.Kprime_inf ∧ paramsCex.Kprime_inf ≤ paramsCex.Kprime_0 ∧
    RKprime.volume 0 300 paramsCex (Except.ok paramsCex.V_0) ∧
    RKprime.pressure 300 paramsCex.V_0 paramsCex
      (Except.error "f(a) and f(b) must have different signs") ∧
    ∀ P2 : ℝ, (Except.error "f(a) and f(b) must have different signs" :
      Except String ℝ) ≠ Except.ok P2 := by
  have hKi : (0 : ℝ) < paramsCex.Kprime_inf := by norm_num [paramsCex]
  have hK0p : (0 : ℝ) < paramsCex.Kprime_0 := by norm_num [paramsCex]
  have hfb := fV_ext_at_boundary paramsCex.V_0 paramsCex.V_0 paramsCex.K_0
    paramsCex.Kprime_0 paramsCex.Kprime_inf hKi hK0p
  have harg : (1 : ℝ) - paramsCex.Kprime_inf * (-1) ≠ 0 := by norm_num [paramsCex]
  have hfa' := fV_ext_coe paramsCex.V_0 paramsCex.V_0 paramsCex.K_0
    paramsCex.Kprime_0 paramsCex.Kprime_inf (-1) harg
  have hlt1 : Real.log (8 / 3) < 1 := by
    rw [Real.log_lt_iff_lt_exp (by norm_num)]
    have := Real.exp_one_gt_d9
    linarith
  have hdelta : delta_PoverK_from_V (-1) paramsCex.V_0 paramsCex.V_0 paramsCex.K_0
      paramsCex.Kprime_0 paramsCex.Kprime_inf < 0 := by
    unfold delta_PoverK_from_V
    rw [show paramsCex.V_0 / paramsCex.V_0 = 1 by norm_num [paramsCex], Real.log_one]
    rw [show (1 : ℝ) - paramsCex.Kprime_inf * (-1) = 8 / 3 by norm_num [paramsCex]]
    rw [show paramsCex.Kprime_0 / paramsCex.Kprime_inf / paramsCex.Kprime_inf
      = 18 / 5 by norm_num [paramsCex]]
    rw [show paramsCex.Kprime_0 / paramsCex.Kprime_inf - 1 = 5 by norm_num [paramsCex]]
    linarith
  have hfa : fV_ext paramsCex.V_0 paramsCex.V_0 paramsCex.K_0
      paramsCex.Kprime_0 paramsCex.Kprime_inf (-1) < 0 := by
    rw [hfa']
    exact EReal.coe_neg'.mpr hdelta
  refine ⟨by norm_num [paramsCex], by norm_num [paramsCex],
    volume_at_zero_pressure paramsCex 300 hKi, ?_, by intro P2; simp⟩
  right
  refine ⟨_, ?_, rfl⟩
  apply brentq.no_sign_change
  rintro (⟨h1, h2⟩ | ⟨h1, h2⟩ | h1 | h1)
  · rw [hfb] at h2
    exact not_lt_bot h2
  · exact lt_asymm hfa h1
  · rw [hfa'] at h1
    exact absurd (EReal.coe_eq_zero.mp h1) (ne_of_lt hdelta)
  · rw [hfb] at h1
    exact absurd h1 (by simp)

/-- A valid parameter set on which the sign-change precondition holds at
zero pressure. -/
noncomputable def paramsC1 : PhysParams := ⟨1e-5, 1.6e11, 4, 2⟩

/-- Claim C1, witness for the amended round trip: at `paramsC1` and zero
pressure the sign-change precondition holds, and every admissible outcome
of the composition is the original pressure. -/
theorem C1_round_trip_witness :
    0 < paramsC1.V_0 ∧ 0 < paramsC1.K_0 ∧
    5 / 3 ≤ paramsC1.Kprime_inf ∧ paramsC1.Kprime_inf ≤ paramsC1.Kprime_0 ∧
    (0 : ℝ) ≤ 0 ∧
    RKprime.volume 0 300 paramsC1 (Except.ok paramsC1.V_0) ∧
    0 < fV_ext paramsC1.V_0 paramsC1.V_0 paramsC1.K_0 paramsC1.Kprime_0
      paramsC1.Kprime_inf (-1) ∧
    (∀ out, RKprime.pressure 300 paramsC1.V_0 paramsC1 out → out = Except.ok 0) := by
  have hvol : RKprime.volume 0 300 paramsC1 (Except.ok paramsC1.V_0) :=
    volume_at_zero_pressure paramsC1 300 (by norm_num [paramsC1])
  have hsign : 0 < fV_ext paramsC1.V_0 paramsC1.V_0 paramsC1.K_0 paramsC1.Kprime_0
      paramsC1.Kprime_inf (-1) := by
    rw [fV_ext_coe _ _ _ _ _ _
      (show (1 : ℝ) - paramsC1.Kprime_inf * (-1) ≠ 0 by norm_num [paramsC1])]
    rw [EReal.coe_pos]
    unfold delta_PoverK_from_V
    rw [show paramsC1.V_0 / paramsC1.V_0 = 1 by norm_num [paramsC1], Real.log_one]
    rw [show (1 : ℝ) - paramsC1.Kprime_inf * (-1) = 3 by norm_num [paramsC1]]
    rw [show paramsC1.Kprime_0 / paramsC1.Kprime_inf / paramsC1.Kprime_inf = 1
      by norm_num [paramsC1]]
    rw [show paramsC1.Kprime_0 / paramsC1.Kprime_inf - 1 = 1 by norm_num [paramsC1]]
    have h3 : 1 < Real.log 3 := by
      rw [Real.lt_log_iff_exp_lt (by norm_num)]
      have := Real.exp_one_lt_d9
      linarith
    linarith
  exact ⟨by norm_num [paramsC1], by norm_num [paramsC1], by norm_num [paramsC1],
    by norm_num [paramsC1], le_refl 0, hvol, hsign,
    C1_round_trip paramsC1 0 300 300 paramsC1.V_0 (by norm_num [paramsC1])
      (by norm_num [paramsC1]) (by norm_num [paramsC1]) (by norm_num [paramsC1])
      (le_refl 0) hvol hsign⟩
